import Mathlib

/-!
GXplorer: a shallow embedding of the dual-pane selection / navigation model
of the source (src/main.py, src/modules/file_explorer.py), with theorems
settling the frozen claims about it.

Modelling conventions:
  - an entry identity is its path, as a `String`;
  - a pane's listing snapshot is the ordered `List Entry` of rows shown
    under the tree's current root index, in model order;
  - `qtSelection` is the set of row paths selected in the view's built-in
    selection model (`tree.selectionModel()`), the one the F5/F6/F8
    handlers read;
  - `customSelection` is the set of row paths selected in the custom
    selection model (`FileExplorerPanel.my_selection_model`, stored in
    `tree.selection_model`), the one `toggle_selection` mutates and the
    delegate paints;
  - `currentIndex` is the identity denoted by `tree.currentIndex()`
    (Qt model indexes are persistent pointers to an entry, not row
    numbers relative to the root), `none` when invalid;
  - the file system and the directory listing are collaborators, passed
    in as a list of existing paths and a listing function.
-/

/-- One file-system object shown in a pane: its stable identity (normalized
absolute path) and whether it is a directory. -/
structure Entry where
  identity : String
  isDirectory : Bool
deriving DecidableEq, Repr

/-- FileExplorerTree.toggle_selection (file_explorer.py lines 150-166), at the
granularity of row identities: if the row is selected in the custom selection
model, deselect it, else select it. -/
def toggle_selection (sel : Finset String) (id : String) : Finset String :=
  if id ∈ sel then sel.erase id else insert id sel

/-- QItemSelectionModel.isSelected on the custom selection model, at the
granularity of row identities. -/
def isSelected (sel : Finset String) (id : String) : Bool :=
  decide (id ∈ sel)

/-- Helper for os.path.normpath: Python str.split on the slash separator,
keeping empty components, over explicit character lists. -/
def splitSlash : List Char → List Char → List (List Char)
  | [], acc => [acc.reverse]
  | c :: rest, acc =>
    if c = '/' then acc.reverse :: splitSlash rest []
    else splitSlash rest (c :: acc)

/-- Helper for os.path.normpath: Python sep.join of the surviving components. -/
def joinSlash : List (List Char) → List Char
  | [] => []
  | [c] => c
  | c :: rest => c ++ '/' :: joinSlash rest

/-- Helper for os.path.normpath: the component loop — drop empty and dot
components, resolve a dot-dot against the accumulated components unless the
path is relative with nothing accumulated (or only dot-dots accumulated), in
which case the dot-dot is kept; at an absolute root a leading dot-dot is
dropped. -/
def normParts (initialSlashes : Bool) : List (List Char) → List (List Char) → List (List Char)
  | [], acc => acc.reverse
  | c :: rest, acc =>
    if c = [] ∨ c = ['.'] then normParts initialSlashes rest acc
    else if c = ['.', '.'] then
      match acc with
      | [] => if initialSlashes then normParts initialSlashes rest []
              else normParts initialSlashes rest [['.', '.']]
      | a :: as =>
        if a = ['.', '.'] then normParts initialSlashes rest (['.', '.'] :: a :: as)
        else normParts initialSlashes rest as
    else normParts initialSlashes rest (c :: acc)

/-- Body of os.path.normpath (posix flavor, the platform convention used for
embedding): collapse separators, resolve single and double dots, preserve a
doubled leading slash, map the empty result to a single dot. -/
def normpathChars (p : List Char) : List Char :=
  if p = [] then ['.']
  else
    let initialSlashes : Bool := match p with | '/' :: _ => true | _ => false
    let doubled : Bool := decide (p.take 2 = ['/', '/']) && !(decide (p.take 3 = ['/', '/', '/']))
    let comps := splitSlash p []
    let body := joinSlash (normParts initialSlashes comps [])
    let pre : List Char := if initialSlashes then (if doubled then ['/', '/'] else ['/']) else []
    let res := pre ++ body
    if res = [] then ['.'] else res

/-- os.path.normpath, as applied by navigate_to_path and the file-operation
handlers to the paths they act on. -/
def normpath (p : String) : String := String.mk (normpathChars p.data)

/-- The file-system collaborator: the set of existing paths, each with its
kind.  Stands for what os.path.exists / os.path.isdir observe. -/
structure FSEntry where
  path : String
  isDir : Bool
deriving DecidableEq, Repr

/-- A file system is the finite list of objects that exist. -/
abbrev FileSystem := List FSEntry

/-- os.path.exists over the file-system collaborator. -/
def fsExists (fs : FileSystem) (p : String) : Bool :=
  fs.any (fun e => e.path = p)

/-- os.path.isdir over the file-system collaborator. -/
def fsIsDir (fs : FileSystem) (p : String) : Bool :=
  fs.any (fun e => e.path = p && e.isDir)

/-- The error taxonomy of path resolution in navigate_to_path: the only
failure it distinguishes is a non-existent path. -/
inductive NavError where
  | NotFound
deriving DecidableEq, Repr

/-- The path-resolution step of FileExplorerPanel.navigate_to_path
(file_explorer.py lines 263-267): fail when os.path.exists is false, else
return the os.path.normpath-normalized path.  No directory check is made. -/
def resolve (fs : FileSystem) (raw : String) : Except NavError String :=
  if fsExists fs raw then Except.ok (normpath raw) else Except.error NavError.NotFound

/-- The state of one FileExplorerPanel together with its FileExplorerTree:
current path, listing snapshot (rows under the tree root, in model order),
the built-in selection model's selected row paths, the custom selection
model's selected row paths, and the current (focused) index. -/
structure PanelState where
  current_path : String
  snapshot : List Entry
  qtSelection : Finset String
  customSelection : Finset String
  currentIndex : Option String
deriving DecidableEq

/-- FileExplorerPanel.navigate_to_path (file_explorer.py lines 263-269): if
the raw path does not exist, warn and return with the panel untouched; else
store the normalized path and re-root the tree, which replaces the visible
snapshot with the listing of the new path.  Neither selection model nor the
current index is touched.  The directory listing is a collaborator. -/
def navigate_to_path (fs : FileSystem) (listing : String → List Entry)
    (s : PanelState) (path : String) : PanelState × Option NavError :=
  match resolve fs path with
  | Except.error e => (s, some e)
  | Except.ok np =>
      ({ s with current_path := np, snapshot := listing np }, none)

/-- Identifier of one of the two panes of the main window. -/
inductive PaneId where
  | left
  | right
deriving DecidableEq, Repr

/-- The state of GXplorerMainWindow that the claims are about: the two
panels and the active-panel field. -/
structure ControllerState where
  left : PanelState
  right : PanelState
  active : PaneId
deriving DecidableEq

/-- The panel self.active_panel refers to. -/
def activePanel (c : ControllerState) : PanelState :=
  match c.active with
  | PaneId.left => c.left
  | PaneId.right => c.right

/-- The panel opposite the active one (the copy/move destination panel). -/
def inactivePanel (c : ControllerState) : PanelState :=
  match c.active with
  | PaneId.left => c.right
  | PaneId.right => c.left

/-- Apply a function to the active panel, leaving the other untouched. -/
def updateActivePanel (c : ControllerState) (f : PanelState → PanelState) : ControllerState :=
  match c.active with
  | PaneId.left => { c with left := f c.left }
  | PaneId.right => { c with right := f c.right }

/-- GXplorerMainWindow.set_active_panel (main.py lines 126-128): store the
panel in self.active_panel and play a sound.  No selection model of either
panel is touched. -/
def set_active_panel (c : ControllerState) (p : PaneId) : ControllerState :=
  { c with active := p }

/-- Methods defined by class FileExplorerPanel (file_explorer.py lines
182-333), by name. -/
def fileExplorerPanelMethods : List String :=
  ["__init__", "populate_drives", "on_drive_changed", "on_path_entered",
   "go_up", "navigate_to_path", "open_context_menu", "on_double_click",
   "rename_item", "delete_item"]

/-- Instance attributes assigned by FileExplorerPanel.__init__
(file_explorer.py lines 183-239), by name. -/
def fileExplorerPanelInstanceAttrs : List String :=
  ["current_path", "main_layout", "path_layout", "drive_combo", "path_edit",
   "go_button", "up_button", "model", "tree", "my_selection_model", "delegate"]

/-- Python attribute lookup on a FileExplorerPanel instance: true iff the
name is an instance attribute or a method of the class.  The QWidget base
classes define no snake-case method of the names looked up here. -/
def panelHasAttr (n : String) : Bool :=
  (fileExplorerPanelInstanceAttrs ++ fileExplorerPanelMethods).contains n

/-- Outcome of running a Python handler: normal completion, or an
AttributeError raised part-way — in-place mutations made before the raise
persist on the objects, so the state at the raise is carried along. -/
inductive StepResult (σ : Type) where
  | ok : σ → StepResult σ
  | attributeError : String → σ → StepResult σ
deriving DecidableEq

/-- The state the objects are left in, whether or not the handler raised. -/
def StepResult.state {σ : Type} : StepResult σ → σ
  | StepResult.ok s => s
  | StepResult.attributeError _ s => s

/-- The handler raised an AttributeError for the given attribute name. -/
def raisesAttrError {σ : Type} (r : StepResult σ) (n : String) : Prop :=
  match r with
  | StepResult.ok _ => False
  | StepResult.attributeError m _ => m = n

/-- QItemSelectionModel.clearSelection on the built-in selection model of a
panel's tree. -/
def clearQtSelection (s : PanelState) : PanelState :=
  { s with qtSelection := ∅ }

/-- GXplorerMainWindow.eventFilter, Tab branch (main.py lines 93-106): clear
the built-in selection model of both panes, switch the active panel to the
opposite one, then call set_focus_to_first_item on the newly active panel —
an attribute lookup that fails when the class defines no such attribute. -/
def eventFilterTab (c : ControllerState) : StepResult ControllerState :=
  let c1 : ControllerState :=
    { c with left := clearQtSelection c.left, right := clearQtSelection c.right }
  let nxt : PaneId := if c1.active = PaneId.left then PaneId.right else PaneId.left
  let c2 := set_active_panel c1 nxt
  if panelHasAttr "set_focus_to_first_item" then StepResult.ok c2
  else StepResult.attributeError "set_focus_to_first_item" c2

/-- GXplorerMainWindow.__init__, focus setup tail (main.py lines 86-88):
set_active_panel(left_panel) then left_panel.set_focus_to_first_item(). -/
def initFocusSetup (c : ControllerState) : StepResult ControllerState :=
  let c1 := set_active_panel c PaneId.left
  if panelHasAttr "set_focus_to_first_item" then StepResult.ok c1
  else StepResult.attributeError "set_focus_to_first_item" c1

/-- GXplorerMainWindow.on_f5_copy, target computation (main.py lines
212-236): read the selected indexes of the active panel's built-in selection
model; when empty the handler does nothing (returns none); else the copied
sources are the set of normalized selected row paths (a Python set — no
order), and the destination is the opposite panel's current path.  Actual
I/O is a collaborator. -/
def on_f5_copy (c : ControllerState) : Option (Finset String × String) :=
  let src := activePanel c
  let tgt := inactivePanel c
  if src.qtSelection = ∅ then none
  else some (src.qtSelection.image normpath, tgt.current_path)

/-- GXplorerMainWindow.on_f8_delete, target computation (main.py lines
270-291): read the selected indexes of the active panel's built-in selection
model; when empty the handler does nothing (returns none); else the deleted
targets are the set of normalized selected row paths.  Confirmation dialog
and actual I/O are collaborators. -/
def on_f8_delete (c : ControllerState) : Option (Finset String) :=
  let p := activePanel c
  if p.qtSelection = ∅ then none
  else some (p.qtSelection.image normpath)

/-- Modelled from the spec: `SelectionSet.materialize(snapshot)` of section
4.3 — the entries of the snapshot, in snapshot order, whose identity is in
the selection set.  No function in src computes this; the file-operation
handlers read the built-in selection model instead. -/
def materialize (sel : Finset String) (snap : List Entry) : List Entry :=
  snap.filter (fun e => decide (e.identity ∈ sel))

/-- Modelled from the spec: `resolveActionTargets(paneId)` of section 4.5 —
the materialized selection when non-empty, else the entry at the focus
cursor when set, else empty.  No function in src computes this; stated here
for comparison with the handlers' actual target computation. -/
def resolveActionTargets (c : ControllerState) : List Entry :=
  let p := activePanel c
  let m := materialize p.customSelection p.snapshot
  if m ≠ [] then m
  else
    match p.currentIndex with
    | some id => p.snapshot.filter (fun e => decide (e.identity = id))
    | none => []

/-- Row number, under the tree root, of the entry denoted by a model index
with the given path: the position of the first entry of the snapshot with
that identity. -/
def indexOfIdent : List Entry → String → Option Nat
  | [], _ => none
  | e :: rest, id =>
    if e.identity = id then some 0
    else (indexOfIdent rest id).map (· + 1)

/-- FileExplorerTree.move_focus_up (file_explorer.py lines 168-173): when the
current index is valid, QTreeView.indexAbove of row i under the root is row
i-1, invalid at row 0; move the current index there only when valid. -/
def move_focus_up (s : PanelState) : PanelState :=
  match s.currentIndex with
  | none => s
  | some id =>
    match indexOfIdent s.snapshot id with
    | none => s
    | some i =>
      if i = 0 then s
      else
        match s.snapshot.get? (i - 1) with
        | none => s
        | some e => { s with currentIndex := some e.identity }

/-- FileExplorerTree.move_focus_down (file_explorer.py lines 175-180): when
the current index is valid, QTreeView.indexBelow of row i under the root is
row i+1, invalid past the last row; move the current index there only when
valid. -/
def move_focus_down (s : PanelState) : PanelState :=
  match s.currentIndex with
  | none => s
  | some id =>
    match indexOfIdent s.snapshot id with
    | none => s
    | some i =>
      match s.snapshot.get? (i + 1) with
      | none => s
      | some e => { s with currentIndex := some e.identity }

/-- The row number the focus cursor is at in the panel's snapshot, if any. -/
def cursorIdx (s : PanelState) : Option Nat :=
  match s.currentIndex with
  | none => none
  | some id => indexOfIdent s.snapshot id

/-- A concrete file entry, for concrete checks. -/
def entA : Entry := ⟨"/d/a", false⟩

/-- A second concrete file entry, for concrete checks. -/
def entB : Entry := ⟨"/d/b", false⟩

/-- A concrete file system holding one directory. -/
def fsD : FileSystem := [⟨"/d", true⟩]

/-- A concrete file system holding one plain file. -/
def fsFile : FileSystem := [⟨"/f", false⟩]

/-- A concrete listing collaborator: the directory /d holds entA and entB. -/
def listD : String → List Entry := fun p => if p = "/d" then [entA, entB] else []

/-- A concrete panel showing /d with the cursor on the second entry. -/
def paneAtB : PanelState := ⟨"/d", [entA, entB], ∅, ∅, some "/d/b"⟩

/-- A concrete panel showing /d with the cursor on the first entry. -/
def paneAB : PanelState := ⟨"/d", [entA, entB], ∅, ∅, some "/d/a"⟩

/-- A concrete panel with a non-empty custom selection. -/
def paneW : PanelState := ⟨"/d", [entA], ∅, {"/d/a"}, some "/d/a"⟩

/-- A concrete empty right-hand panel. -/
def paneR : PanelState := ⟨"/e", [], ∅, ∅, none⟩

/-- A concrete controller: left pane active, with a custom selection. -/
def cSel : ControllerState := ⟨paneW, paneR, PaneId.left⟩

/-- A concrete controller: left pane active, cursor set, every selection
model empty. -/
def cEmptyQt : ControllerState := ⟨⟨"/d", [entA], ∅, ∅, some "/d/a"⟩, paneR, PaneId.left⟩

/-- A concrete controller whose built-in selection model holds a path that
is not in the snapshot, while the custom selection holds a live one. -/
def cStale : ControllerState := ⟨⟨"/d", [entA], {"/old/x"}, {"/d/a"}, some "/d/a"⟩, paneR, PaneId.left⟩

lemma indexOfIdent_lt_length {snap : List Entry} {id : String} {i : Nat}
    (h : indexOfIdent snap id = some i) : i < snap.length := by
  induction snap generalizing i with
  | nil => simp [indexOfIdent] at h
  | cons e rest ih =>
      by_cases he : e.identity = id
      · simp [indexOfIdent, he] at h
        simp [List.length_cons]
        omega
      · simp [indexOfIdent, he, Option.map_eq_some'] at h
        obtain ⟨j, hj, rfl⟩ := h
        have := ih hj
        simp
        omega

lemma get?_indexOfIdent {snap : List Entry} {id : String} {i : Nat}
    (h : indexOfIdent snap id = some i) :
    ∃ e, snap.get? i = some e ∧ e.identity = id := by
  induction snap generalizing i with
  | nil => simp [indexOfIdent] at h
  | cons e rest ih =>
      by_cases he : e.identity = id
      · simp [indexOfIdent, he] at h
        subst h
        exact ⟨e, rfl, he⟩
      · simp [indexOfIdent, he, Option.map_eq_some'] at h
        obtain ⟨j, hj, rfl⟩ := h
        obtain ⟨e', he', hid⟩ := ih hj
        exact ⟨e', by simpa using he', hid⟩

lemma indexOfIdent_of_get? {snap : List Entry} {j : Nat} {e : Entry}
    (hnd : (snap.map Entry.identity).Nodup)
    (h : snap.get? j = some e) :
    indexOfIdent snap e.identity = some j := by
  induction snap generalizing j with
  | nil => simp at h
  | cons x rest ih =>
      rw [List.map_cons, List.nodup_cons] at hnd
      obtain ⟨hx, hrest⟩ := hnd
      cases j with
      | zero =>
          rw [List.get?_cons_zero] at h
          injection h with h
          subst h
          simp [indexOfIdent]
      | succ k =>
          rw [List.get?_cons_succ] at h
          have hmem : e ∈ rest := List.get?_mem h
          have hne : ¬ x.identity = e.identity := by
            intro hc
            exact hx (hc ▸ List.mem_map_of_mem Entry.identity hmem)
          simp [indexOfIdent, hne, ih hrest h]

lemma mem_toggle_self (sel : Finset String) (id : String) :
    id ∈ toggle_selection sel id ↔ id ∉ sel := by
  by_cases h : id ∈ sel <;> simp [toggle_selection, h]

lemma mem_toggle_of_ne (sel : Finset String) {x id : String} (h : x ≠ id) :
    id ∈ toggle_selection sel x ↔ id ∈ sel := by
  by_cases hx : x ∈ sel <;>
    simp [toggle_selection, hx, Finset.mem_erase, Finset.mem_insert,
      Ne.symm h, h]

lemma mem_foldl_toggle (ids : List String) (sel : Finset String) (id : String) :
    (id ∈ ids.foldl toggle_selection sel) ↔ (id ∈ sel ↔ ¬ Odd (ids.count id)) := by
  induction ids generalizing sel with
  | nil =>
      simp [List.count_nil]
  | cons x ids ih =>
      rw [List.foldl_cons, ih]
      by_cases hx : x = id
      · subst hx
        have hcount : (x :: ids).count x = ids.count x + 1 := by
          simp [List.count_cons]
        rw [hcount, Nat.odd_add_one, mem_toggle_self]
        tauto
      · have hne : ¬ id = x := fun h => hx h.symm
        have hcount : (x :: ids).count id = ids.count id := by
          simp [List.count_cons, hne]
        rw [hcount, mem_toggle_of_ne sel hx]

/-- C4: starting from the freshly constructed (empty) custom selection model,
after any finite sequence of toggle_selection calls an identity is selected
iff it was toggled an odd number of times; and toggle_selection is an
involution on any selection state. -/
theorem C4_toggle_parity_involution (ids : List String) (id : String)
    (sel : Finset String) :
    (isSelected (ids.foldl toggle_selection ∅) id = true ↔ Odd (ids.count id)) ∧
    toggle_selection (toggle_selection sel id) id = sel := by
  constructor
  · rw [isSelected, decide_eq_true_iff, mem_foldl_toggle]
    simp only [Finset.not_mem_empty, false_iff, not_not]
  · by_cases h : id ∈ sel
    · have h1 : toggle_selection sel id = sel.erase id := by
        simp [toggle_selection, h]
      rw [h1]
      have h2 : id ∉ sel.erase id := by simp
      simp [toggle_selection, h2, Finset.insert_erase h]
    · have h1 : toggle_selection sel id = insert id sel := by
        simp [toggle_selection, h]
      rw [h1]
      have h2 : id ∈ insert id sel := Finset.mem_insert_self id sel
      simp [toggle_selection, h2, Finset.erase_insert h]

/-- C1 counterexample: on a pane whose SelectionSet is empty and whose focus
cursor is at entry /d/a, the spec's resolveActionTargets yields exactly that
entry, but the copy handler as written computes no targets at all: the
built-in selection it reads is empty and there is no cursor fallback. -/
theorem C1_counterexample :
    resolveActionTargets cEmptyQt = [entA] ∧ on_f5_copy cEmptyQt = none := by
  decide

/-- C1 (amended): the file-operation target computation reads only the
built-in selection model of the active pane: it is unchanged under any
focus-cursor position and any custom SelectionSet content, and when the
built-in selection is empty the handler operates on nothing at all. -/
theorem C1_targets_ignore_cursor_and_selection (c : ControllerState)
    (cur : Option String) (sel : Finset String) :
    on_f5_copy (updateActivePanel c
      (fun p => { p with currentIndex := cur, customSelection := sel })) = on_f5_copy c ∧
    ((activePanel c).qtSelection = ∅ → on_f5_copy c = none) := by
  obtain ⟨l, r, a⟩ := c
  constructor
  · cases a <;>
      simp [on_f5_copy, updateActivePanel, activePanel, inactivePanel]
  · intro h
    simp [on_f5_copy, h]

/-- C1 witness: the amended statement applied at the concrete controller
with empty built-in selection. -/
theorem C1_targets_witness :
    on_f5_copy (updateActivePanel cEmptyQt
      (fun p => { p with currentIndex := none, customSelection := {"/d/a"} })) = on_f5_copy cEmptyQt ∧
    on_f5_copy cEmptyQt = none :=
  ⟨(C1_targets_ignore_cursor_and_selection cEmptyQt none {"/d/a"}).1,
   (C1_targets_ignore_cursor_and_selection cEmptyQt none {"/d/a"}).2 (by decide)⟩

/-- C2 counterexample: with a non-empty SelectionSet on the left pane,
switching the active pane to the right leaves that SelectionSet non-empty;
the claim says it becomes empty. -/
theorem C2_counterexample :
    (set_active_panel cSel PaneId.right).active = PaneId.right ∧
    (set_active_panel cSel PaneId.right).left.customSelection ≠ ∅ := by
  decide

/-- C2 (amended): set_active_panel makes the given pane active and leaves
both panes — in particular both custom SelectionSets — unchanged; the Tab
switch handler clears the built-in Qt selection of both panes and switches
the active pane to the opposite one, but also leaves both custom
SelectionSets unchanged. -/
theorem C2_pane_switch_preserves_custom_selection (c : ControllerState) (p : PaneId) :
    (set_active_panel c p).active = p ∧
    (set_active_panel c p).left = c.left ∧
    (set_active_panel c p).right = c.right ∧
    ((eventFilterTab c).state).active
      = (if c.active = PaneId.left then PaneId.right else PaneId.left) ∧
    ((eventFilterTab c).state).left.customSelection = c.left.customSelection ∧
    ((eventFilterTab c).state).right.customSelection = c.right.customSelection ∧
    ((eventFilterTab c).state).left.qtSelection = ∅ ∧
    ((eventFilterTab c).state).right.qtSelection = ∅ := by
  have hattr : panelHasAttr "set_focus_to_first_item" = false := by decide
  refine ⟨rfl, rfl, rfl, ?_, ?_, ?_, ?_, ?_⟩ <;>
    simp [eventFilterTab, set_active_panel, clearQtSelection, hattr, StepResult.state]

/-- C3: FileExplorerPanel defines no attribute set_focus_to_first_item, so
the Tab switch handler and the window-initialization focus setup both raise
AttributeError instead of moving the focus cursor. -/
theorem C3_missing_focus_method_raises (c : ControllerState) :
    panelHasAttr "set_focus_to_first_item" = false ∧
    raisesAttrError (eventFilterTab c) "set_focus_to_first_item" ∧
    raisesAttrError (initFocusSetup c) "set_focus_to_first_item" := by
  have hattr : panelHasAttr "set_focus_to_first_item" = false := by decide
  refine ⟨hattr, ?_, ?_⟩ <;>
    simp [eventFilterTab, initFocusSetup, hattr, raisesAttrError]

/-- C5 counterexample: a successful re-navigation of a pane with a non-empty
snapshot and the cursor on the second entry leaves the cursor on the second
entry (row 1), not on the first entry (row 0) as the claim states. -/
theorem C5_counterexample :
    (navigate_to_path fsD listD paneAtB "/d").2 = none ∧
    ((navigate_to_path fsD listD paneAtB "/d").1).snapshot = [entA, entB] ∧
    cursorIdx ((navigate_to_path fsD listD paneAtB "/d").1) = some 1 := by
  decide

/-- C5 (amended): navigate_to_path never re-seats the focus cursor: after
any call, successful or not, the current index is exactly what it was
before the call. -/
theorem C5_navigate_preserves_cursor (fs : FileSystem)
    (listing : String → List Entry) (s : PanelState) (p : String) :
    ((navigate_to_path fs listing s p).1).currentIndex = s.currentIndex := by
  cases h : resolve fs p <;> simp [navigate_to_path, h]

/-- C6 counterexample: resolution of a path that exists but is a plain file
succeeds, where the claim requires it to fail with NotFound. -/
theorem C6_counterexample :
    resolve fsFile "/f" = Except.ok "/f" ∧ fsIsDir fsFile "/f" = false :=
  ⟨rfl, rfl⟩

/-- C6 (amended): path resolution succeeds, returning the normalized path,
exactly when the target exists — whether file or directory — and fails with
NotFound exactly when it does not; directory-ness is never verified. -/
theorem C6_resolve_succeeds_iff_exists (fs : FileSystem) (raw : String) :
    (resolve fs raw = Except.ok (normpath raw) ↔ fsExists fs raw = true) ∧
    (resolve fs raw = Except.error NavError.NotFound ↔ fsExists fs raw = false) := by
  cases h : fsExists fs raw <;> simp [resolve, h]

/-- C7: when path resolution fails, navigate_to_path reports NotFound and
returns the pane state completely unchanged. -/
theorem C7_failed_navigate_leaves_state_unchanged (fs : FileSystem)
    (listing : String → List Entry) (s : PanelState) (p : String)
    (h : fsExists fs p = false) :
    navigate_to_path fs listing s p = (s, some NavError.NotFound) := by
  simp [navigate_to_path, resolve, h]

/-- C7 witness: the theorem applied at a concrete pane and an empty file
system. -/
theorem C7_witness :
    fsExists ([] : FileSystem) "/x" = false ∧
    navigate_to_path [] (fun _ => []) paneW "/x" = (paneW, some NavError.NotFound) :=
  ⟨rfl, C7_failed_navigate_leaves_state_unchanged [] (fun _ => []) paneW "/x" rfl⟩

/-- C8: navigate_to_path leaves the pane's custom SelectionSet untouched,
and so does re-navigating to the same path immediately afterwards: no
identity is ever removed by navigation. -/
theorem C8_navigate_preserves_selection (fs : FileSystem)
    (listing : String → List Entry) (s : PanelState) (p : String) :
    ((navigate_to_path fs listing s p).1).customSelection = s.customSelection ∧
    ((navigate_to_path fs listing ((navigate_to_path fs listing s p).1) p).1).customSelection
      = s.customSelection := by
  cases h : resolve fs p <;> simp [navigate_to_path, h]

/-- C9 counterexample: the delete handler's target set is the stale
built-in selection, which contains an identity absent from the snapshot and
differs from the materialized SelectionSet — file operations neither use the
materialized set nor filter against the snapshot. -/
theorem C9_counterexample :
    on_f8_delete cStale = some {"/old/x"} ∧
    "/old/x" ∉ (activePanel cStale).snapshot.map Entry.identity ∧
    materialize (activePanel cStale).customSelection (activePanel cStale).snapshot
      = [entA] := by
  decide

/-- C9 (amended): the spec-modelled materialize does return a subsequence of
the snapshot (hence in snapshot order, with no stale identity) consisting of
selected entries only; but the delete handler does not use it — its targets
come from the built-in selection model, unchanged under any custom
SelectionSet content, and are not filtered against the snapshot. -/
theorem C9_materialize_sound_but_unused (sel : Finset String) (snap : List Entry)
    (c : ControllerState) (sel' : Finset String) :
    List.Sublist (materialize sel snap) snap ∧
    ((materialize sel snap).all (fun e => decide (e.identity ∈ sel)) = true) ∧
    on_f8_delete (updateActivePanel c
      (fun p => { p with customSelection := sel' })) = on_f8_delete c := by
  refine ⟨List.filter_sublist _, ?_, ?_⟩
  · simp only [materialize, List.all_eq_true]
    intro e he
    exact (List.mem_filter.mp he).2
  · obtain ⟨l, r, a⟩ := c
    cases a <;> simp [on_f8_delete, updateActivePanel, activePanel]

lemma move_focus_up_at_zero {s : PanelState} {id : String}
    (hc : s.currentIndex = some id)
    (hi : indexOfIdent s.snapshot id = some 0) :
    move_focus_up s = s := by
  unfold move_focus_up
  rw [hc]
  dsimp only
  rw [hi]
  rfl

lemma move_focus_up_step {s : PanelState} {id : String} {j : Nat} {e : Entry}
    (hc : s.currentIndex = some id)
    (hi : indexOfIdent s.snapshot id = some (j + 1))
    (hget : s.snapshot.get? j = some e) :
    move_focus_up s = { s with currentIndex := some e.identity } := by
  unfold move_focus_up
  rw [hc]
  dsimp only
  rw [hi]
  dsimp only
  rw [if_neg (by omega : ¬ j + 1 = 0), Nat.add_sub_cancel, hget]

lemma move_focus_down_at_end {s : PanelState} {id : String} {i : Nat}
    (hc : s.currentIndex = some id)
    (hi : indexOfIdent s.snapshot id = some i)
    (hnone : s.snapshot.get? (i + 1) = none) :
    move_focus_down s = s := by
  unfold move_focus_down
  rw [hc]
  dsimp only
  rw [hi]
  dsimp only
  rw [hnone]

lemma move_focus_down_step {s : PanelState} {id : String} {i : Nat} {e : Entry}
    (hc : s.currentIndex = some id)
    (hi : indexOfIdent s.snapshot id = some i)
    (hget : s.snapshot.get? (i + 1) = some e) :
    move_focus_down s = { s with currentIndex := some e.identity } := by
  unfold move_focus_down
  rw [hc]
  dsimp only
  rw [hi]
  dsimp only
  rw [hget]

/-- C10: on a snapshot of pairwise-distinct identities with the cursor at
row i, move_focus_up leaves the cursor at row 0 when i = 0 and moves it to
the adjacent row i-1 otherwise; move_focus_down leaves the cursor at the
last row when i is last and moves it to the adjacent row i+1 otherwise —
clamped at both ends, no wraparound. -/
theorem C10_cursor_clamped (s : PanelState) (id : String) (i : Nat)
    (hnd : (s.snapshot.map Entry.identity).Nodup)
    (hc : s.currentIndex = some id)
    (hi : indexOfIdent s.snapshot id = some i) :
    (i = 0 → cursorIdx (move_focus_up s) = some 0) ∧
    (∀ j, i = j + 1 → cursorIdx (move_focus_up s) = some j) ∧
    (i + 1 = s.snapshot.length → cursorIdx (move_focus_down s) = some i) ∧
    (i + 1 < s.snapshot.length → cursorIdx (move_focus_down s) = some (i + 1)) := by
  refine ⟨?_, ?_, ?_, ?_⟩
  · intro h0
    subst h0
    rw [move_focus_up_at_zero hc hi]
    simp [cursorIdx, hc, hi]
  · intro j hj
    subst hj
    have hlt : j + 1 < s.snapshot.length := indexOfIdent_lt_length hi
    have hjlt : j < s.snapshot.length := by omega
    have hget : s.snapshot.get? j = some (s.snapshot.get ⟨j, hjlt⟩) :=
      List.get?_eq_get hjlt
    have hidx : indexOfIdent s.snapshot (s.snapshot.get ⟨j, hjlt⟩).identity = some j :=
      indexOfIdent_of_get? hnd hget
    rw [move_focus_up_step hc hi hget]
    simp only [cursorIdx]
    simpa using hidx
  · intro hlast
    have hnone : s.snapshot.get? (i + 1) = none :=
      List.get?_eq_none.mpr (by omega)
    rw [move_focus_down_at_end hc hi hnone]
    simp [cursorIdx, hc, hi]
  · intro hlt
    have hget : s.snapshot.get? (i + 1) = some (s.snapshot.get ⟨i + 1, hlt⟩) :=
      List.get?_eq_get hlt
    have hidx : indexOfIdent s.snapshot (s.snapshot.get ⟨i + 1, hlt⟩).identity = some (i + 1) :=
      indexOfIdent_of_get? hnd hget
    rw [move_focus_down_step hc hi hget]
    simp only [cursorIdx]
    simpa using hidx

/-- C10 witness: the theorem applied at a concrete two-entry snapshot with
the cursor at the first row — moving up stays at row 0, moving down reaches
row 1. -/
theorem C10_witness :
    cursorIdx (move_focus_up paneAB) = some 0 ∧
    cursorIdx (move_focus_down paneAB) = some 1 := by
  have h := C10_cursor_clamped paneAB "/d/a" 0 (by decide) (by decide) (by decide)
  exact ⟨h.1 rfl, h.2.2.2 (by decide)⟩
